import Mathlib

/-!
Verification development for the QMC/NPrinting monitoring agent.

The definitions below are a shallow embedding of the repository's core
components: the combiner (src/nodes/combined_analyst.py), the QMC group
analyzer and tag partitioner (src/nodes/qmc/analyst_llm.py), the NPrinting
analyzer (src/nodes/nprinting/analyst.py), the orchestrator routing
functions and node state updates (src/graph.py, the login/extractor nodes
and their scripts), and the deterministic summary fallback.

Python dictionaries carrying group reports are embedded as association
lists (ordered key/report pairs); JSON values decoded by json.loads are
embedded as an inductive Json type; machine-level concerns (real-time
backoff sleeps, subprocess transport) stay outside the embedding: the
collaborator outcomes they produce are passed in explicitly.
-/

/-- Helper for substring containment: does list a occur contiguously
inside list b. -/
def listInfixB (a : List Char) : List Char → Bool
  | [] => a.isPrefixOf []
  | c :: rest => a.isPrefixOf (c :: rest) || listInfixB a rest

/-- Substring containment on strings, the embedding of the Python
membership test (needle in haystack) used for tag matching and for
checking that a summary contains a fixed phrase. -/
def strContains (needle hay : String) : Bool :=
  listInfixB needle.data hay.data

/-- ASCII lowercasing over the character list, the embedding of
str.lower() as applied to the status vocabulary (which is ASCII);
this matches Char.toLower, which also only maps A-Z. -/
def lowerStr (s : String) : String :=
  ⟨s.data.map Char.toLower⟩

/-- One group report as consumed by the combiner and produced by the
analyzers.  Embeds the Python report dictionaries: status models
r.get("status", "") (an absent status key is the empty string), summary
models r.get("summary", ""); the task-name lists default to empty for
reports that do not carry them. -/
structure Report where
  status : String
  summary : String
  failedTasks : List String := []
  runningTasks : List String := []
  deriving DecidableEq

/-- Report maps of the combiner: Python dict from process-group name to
report, embedded as an ordered association list. -/
abbrev ReportMap := List (String × Report)

/-- Embeds the status-collection loop of determine_overall_status
(src/nodes/combined_analyst.py lines 25-30): lower-case every report's
status and keep it only when it is non-empty and not one of the
bookkeeping statuses "no data" / "no run". -/
def collectStatuses (reports : List Report) : List String :=
  (reports.map (fun r => lowerStr r.status)).filter
    (fun st => !(st == "") && !(st == "no data") && !(st == "no run"))

/-- Embeds the precedence chain of determine_overall_status
(src/nodes/combined_analyst.py lines 32-47) applied to the collected
status list. -/
def statusPrecedence (ss : List String) : String :=
  if ss.isEmpty then "No Data"
  else if ss.any (fun s => s == "failed") then "Failed"
  else if ss.any (fun s => s == "error") then "Failed"
  else if ss.any (fun s => s == "running") then "Running"
  else if ss.any (fun s => s == "pending") then "Pending"
  else if ss.all (fun s => s == "success") then "Success"
  else "Pending"

/-- Embeds determine_overall_status(qmc_reports, nprinting_reports): the
loop ranges over list(qmc.values()) + list(nprinting.values()). -/
def determineOverallStatus (qmc nprinting : ReportMap) : String :=
  statusPrecedence (collectStatuses (qmc.map Prod.snd ++ nprinting.map Prod.snd))

/-- Embeds the overall_status field of the report built by
combined_analyst_node: when both maps are empty the node short-circuits
to "Pending" (lines 146-154); otherwise it stores
determine_overall_status of the two maps (line 161). -/
def combinedOverallStatus (qmc nprinting : ReportMap) : String :=
  if qmc.isEmpty && nprinting.isEmpty then "Pending"
  else determineOverallStatus qmc nprinting

/-- Status pool of one report map as described by the amended C1 claim:
every group's status, lower-cased, except the bookkeeping statuses and
empty statuses. -/
def amendedStatusPool (m : ReportMap) : List String :=
  (m.map (fun g => lowerStr g.2.status)).filter
    (fun st => decide (st ∉ (["", "no data", "no run"] : List String)))

/-- Cross-source precedence exactly as the amended C1 claim words it,
over the pooled status list. -/
def specPrecedenceC1 (pool : List String) : String :=
  if pool = [] then "No Data"
  else if "failed" ∈ pool then "Failed"
  else if "error" ∈ pool then "Failed"
  else if "running" ∈ pool then "Running"
  else if "pending" ∈ pool then "Pending"
  else if ∀ s ∈ pool, s = "success" then "Success"
  else "Pending"

/-- Overall status as the amended C1 claim words it: Pending when both
maps are empty, No Data when the pooled statuses (bookkeeping and empty
statuses excluded) are exhausted, otherwise the cross-source
precedence. -/
def specCombinedC1 (qmc nprinting : ReportMap) : String :=
  if qmc = [] ∧ nprinting = [] then "Pending"
  else specPrecedenceC1 (amendedStatusPool qmc ++ amendedStatusPool nprinting)

/-- Names of the groups whose status (lower-cased) is failed or error,
the embedding of the list comprehensions in _generate_summary_fallback
(src/nodes/combined_analyst.py lines 111-112). -/
def failedNames (m : ReportMap) : List String :=
  (m.filter (fun p =>
    decide (lowerStr p.2.status ∈ (["failed", "error"] : List String)))).map Prod.fst

/-- Embeds _generate_summary_fallback (src/nodes/combined_analyst.py
lines 106-122): the deterministic templated executive summary.  It is a
plain function of its three arguments and takes no collaborator: it can
invoke no external service. -/
def generateSummaryFallback (overall_status : String) (qmc nprinting : ReportMap) : String :=
  let total_qmc := qmc.length
  let total_nprinting := nprinting.length
  let qmc_failed := failedNames qmc
  let nprinting_failed := failedNames nprinting
  if overall_status = "Success" then
    "All " ++ toString (total_qmc + total_nprinting) ++ " processes completed successfully."
  else if overall_status = "Failed" then
    let failed_list := qmc_failed ++ nprinting_failed
    "CRITICAL: " ++ toString failed_list.length ++ " process(es) failed: " ++
      String.intercalate ", " (failed_list.take 3) ++
      (if failed_list.length > 3 then "..." else "")
  else if overall_status = "Running" then
    "Processes are still running. QMC: " ++ toString total_qmc ++
      ", NPrinting: " ++ toString total_nprinting ++ "."
  else
    "Status: " ++ overall_status ++ ". QMC: " ++ toString total_qmc ++
      " processes, NPrinting: " ++ toString total_nprinting ++ " processes."

/-- Embeds generate_summary_llm (src/nodes/combined_analyst.py lines
62-103): the natural-language collaborator call is external, so its
outcome is passed in; on success the stripped content is returned, and
on any failure the deterministic fallback is used. -/
def generateSummaryLlm (collabResult : Except String String)
    (overall_status : String) (qmc nprinting : ReportMap) : String :=
  match collabResult with
  | .ok content => content.trim
  | .error _ => generateSummaryFallback overall_status qmc nprinting

/-- One QMC task row (a dict in structured_data): the fields read by the
analyst.  Optional fields embed dict.get returning None when absent;
tags embeds the string-ified tag field str(task.get("Tags", "")). -/
structure QRow where
  name : Option String
  status : Option String
  lastExecution : Option String
  enabled : Option String
  tags : String
  deriving DecidableEq

/-- One NPrinting task row (a dict in nprinting_data): the fields read
by the NPrinting analyst. -/
structure NRow where
  taskName : Option String
  status : Option String
  progress : Option String
  created : Option String
  deriving DecidableEq

/-- The workflow state (src/state.py QMCState), restricted to the fields
the routing functions and the login/extractor nodes read or write.
Log/screenshot append-only fields are omitted: no modelled claim reads
them. -/
structure WState where
  current_step : String
  retry_count : Nat
  max_retries : Nat
  session_cookies : Option (List (String × String))
  browser_state_path : Option String
  structured_data : List QRow
  nprinting_retry_count : Nat
  nprinting_cookies : Option (List (String × String))
  nprinting_state_path : Option String
  nprinting_data : List NRow
  error_message : Option String
  qmc_error : Option String
  nprinting_error : Option String
  deriving DecidableEq

/-- Python truthiness of an optional cookie dict: None and the empty
dict are falsy. -/
def cookiesTruthy : Option (List (String × String)) → Bool
  | none => false
  | some l => !l.isEmpty

/-- Embeds route_after_qmc_login (src/graph.py lines 72-78). -/
def route_after_qmc_login (s : WState) : String :=
  if !cookiesTruthy s.session_cookies then
    if s.max_retries ≤ s.retry_count then "error" else "qmc_login"
  else "qmc_extractor"

/-- Embeds route_after_qmc_extractor (src/graph.py lines 80-84). -/
def route_after_qmc_extractor (s : WState) : String :=
  if s.current_step == "error" then "error" else "qmc_analyst"

/-- Embeds route_after_nprinting_login (src/graph.py lines 86-92). -/
def route_after_nprinting_login (s : WState) : String :=
  if !cookiesTruthy s.nprinting_cookies then
    if s.max_retries ≤ s.nprinting_retry_count then "error" else "nprinting_login"
  else "nprinting_extractor"

/-- Embeds route_after_nprinting_extractor (src/graph.py lines 94-98). -/
def route_after_nprinting_extractor (s : WState) : String :=
  if s.current_step == "error" then "error" else "nprinting_analyst"

/-- Outcome of one login collaborator run (the login script executed in
a child process): success with the extracted cookie dict, a failure
inside the page-automation block (the script's inner except branch), or
a failure before the browser even started (the script's outer except
branch, "Playwright initialization failed"). -/
inductive LoginOutcome where
  | ok (cookies : List (String × String))
  | pageFail (err : String)
  | initFail (err : String)
  deriving DecidableEq

/-- Embeds the QMC login stage end to end: the login script's result
dict (src/scripts/login_script.py lines 107-151) composed with
login_node_sync's renaming of error_message to qmc_error and insertion
of session_cookies=None (src/nodes/qmc/login_node_sync.py lines 40-48),
merged into the state with LangGraph replace semantics.  The script is
passed retry_count and max_retries from the state. -/
def login_node_sync (s : WState) (o : LoginOutcome) : WState :=
  match o with
  | .ok cookies =>
      { s with current_step := "filter", session_cookies := some cookies,
               browser_state_path := some "browser_state.json", error_message := none }
  | .pageFail e =>
      { s with current_step := if s.max_retries ≤ s.retry_count + 1 then "error" else "login",
               retry_count := s.retry_count + 1,
               qmc_error := some e, session_cookies := none }
  | .initFail e =>
      { s with qmc_error := some ("Playwright initialization failed: " ++ e),
               session_cookies := none }

/-- Embeds the NPrinting login stage end to end: the NPrinting login
script's result dict (src/scripts/nprinting/login_script.py lines
130-174) composed with nprinting_login_node (src/nodes/nprinting/
login_node.py lines 33-47), merged into the state.  On failure the node
stores result.get("retry_count", 0): the inner except branch carries
retry_count+1, while the outer branch carries no retry_count, so the
counter is reset to the default 0. -/
def nprinting_login_node (s : WState) (o : LoginOutcome) : WState :=
  match o with
  | .ok cookies =>
      { s with nprinting_cookies := some cookies,
               nprinting_state_path := some "nprinting_browser_state.json" }
  | .pageFail e =>
      { s with nprinting_retry_count := s.nprinting_retry_count + 1,
               nprinting_error := some e, nprinting_cookies := none }
  | .initFail e =>
      { s with nprinting_retry_count := 0,
               nprinting_error := some ("Playwright initialization failed: " ++ e),
               nprinting_cookies := none }

/-- Outcome of one extraction collaborator run: the extracted rows, or a
structured failure with an error string. -/
inductive ExtractOutcome (ρ : Type) where
  | ok (rows : List ρ)
  | fail (err : String)

/-- Embeds the QMC extractor stage: extractor_node
(src/nodes/qmc/extractor.py lines 33-54) merged into the state.  On
collaborator failure it records qmc_error and an empty row list; it
never writes current_step. -/
def extractor_node (s : WState) (o : ExtractOutcome QRow) : WState :=
  match o with
  | .ok rows => { s with structured_data := rows }
  | .fail e => { s with qmc_error := some ("QMC Extraction failed: " ++ e),
                        structured_data := [] }

/-- Embeds the NPrinting extractor stage: nprinting_extractor_node
(src/nodes/nprinting/extractor.py lines 29-51) merged into the state. -/
def nprinting_extractor_node (s : WState) (o : ExtractOutcome NRow) : WState :=
  match o with
  | .ok rows => { s with nprinting_data := rows }
  | .fail e => { s with nprinting_error := some ("NPrinting extraction failed: " ++ e),
                        nprinting_data := [] }

/-- Concrete state reached after a successful QMC login (current_step is
"filter", a session cookie is present), used to exhibit the C2
counterexample. -/
def stateAfterLogin : WState :=
  { current_step := "filter", retry_count := 0, max_retries := 3,
    session_cookies := some [("X-Qlik-Session", "abc")],
    browser_state_path := some "browser_state.json", structured_data := [],
    nprinting_retry_count := 0, nprinting_cookies := none,
    nprinting_state_path := none, nprinting_data := [],
    error_message := none, qmc_error := none, nprinting_error := none }

/-- Concrete state in the middle of QMC login retries (retry_count 1 of
max 3, no session), used to exhibit the C3 counterexample. -/
def stateMidRetry : WState :=
  { current_step := "login", retry_count := 1, max_retries := 3,
    session_cookies := none, browser_state_path := none, structured_data := [],
    nprinting_retry_count := 0, nprinting_cookies := none,
    nprinting_state_path := none, nprinting_data := [],
    error_message := none, qmc_error := none, nprinting_error := none }

/-- One pass of the partition loop body in analyst_llm_node
(src/nodes/qmc/analyst_llm.py lines 192-196): append the task to every
configured bucket whose key occurs in the task's tag string. -/
def partitionStep (parts : List (String × List QRow)) (task : QRow) :
    List (String × List QRow) :=
  parts.map (fun p => if strContains p.1 task.tags then (p.1, p.2 ++ [task]) else p)

/-- Embeds the tag partitioner of analyst_llm_node (src/nodes/qmc/
analyst_llm.py lines 189-196): buckets initialized empty for every
configured key, then each task appended to every bucket whose key is a
substring of the task's string-ified tags. -/
def partitionTags (rows : List QRow) (keys : List String) : List (String × List QRow) :=
  rows.foldl partitionStep (keys.map (fun k => (k, [])))

/-- JSON values as decoded by json.loads, the input to the response
validation layer (markdown-fence stripping and the textual decode
happen before this point and stay outside the embedding). -/
inductive Json where
  | null
  | bool (b : Bool)
  | num (n : Int)
  | str (s : String)
  | arr (items : List Json)
  | obj (fields : List (String × Json))

/-- Python key-membership test on a decoded dict. -/
def jsonHasKey (fields : List (String × Json)) (key : String) : Bool :=
  fields.any (fun kv => kv.1 == key)

/-- Embeds the list-element test of _parse_llm_response
(src/nodes/qmc/analyst_llm.py line 66): an element is accepted as the
analysis only when it is a dict holding both a status and a summary
key. -/
def looksLikeAnalysis : Json → Bool
  | .obj fields => jsonHasKey fields "status" && jsonHasKey fields "summary"
  | _ => false

/-- The validated structured output (the Pydantic AnalysisResult model
of src/nodes/qmc/analyst_llm.py lines 30-35). -/
structure AnalysisResult where
  status : String
  summary : String
  failed_tasks : List String := []
  running_tasks : List String := []
  deriving DecidableEq

/-- A JSON value accepted by Pydantic as List[str]: a list whose
elements are all strings. -/
def asStringList : Json → Option (List String)
  | .arr items =>
      items.foldr
        (fun j acc =>
          match j, acc with
          | .str s, some l => some (s :: l)
          | _, _ => none)
        (some [])
  | _ => none

/-- Embeds the Pydantic validation AnalysisResult(**raw)
(src/nodes/qmc/analyst_llm.py line 79): status must be one of the four
literals, summary must be a string and is required, the two task lists
default to empty and must be lists of strings when present; extra keys
are ignored. -/
def validateAnalysis (fields : List (String × Json)) : Except String AnalysisResult :=
  match fields.lookup "status" with
  | some (.str st) =>
    if st = "Success" ∨ st = "Running" ∨ st = "Failed" ∨ st = "Pending" then
      match fields.lookup "summary" with
      | some (.str sm) =>
        let ft := match fields.lookup "failed_tasks" with
          | none => some []
          | some j => asStringList j
        let rt := match fields.lookup "running_tasks" with
          | none => some []
          | some j => asStringList j
        match ft, rt with
        | some f, some r =>
            .ok { status := st, summary := sm, failed_tasks := f, running_tasks := r }
        | _, _ => .error "validation error: task lists must be lists of strings"
      | some _ => .error "validation error: summary must be a string"
      | none => .error "validation error: summary field required"
    else .error "validation error: status must be Success, Running, Failed or Pending"
  | some _ => .error "validation error: status must be a string"
  | none => .error "LLM returned unexpected format."

/-- Embeds _parse_llm_response (src/nodes/qmc/analyst_llm.py lines
52-80) applied to the decoded JSON value: a bare list is searched for
the first element that looks like an analysis record (dict with status
and summary keys) and rejected when none exists; a non-dict or a dict
without a status key is rejected; the surviving dict goes through the
Pydantic validation. -/
def parseLlmResponse (raw : Json) : Except String AnalysisResult :=
  match raw with
  | .arr items =>
    match items.find? looksLikeAnalysis with
    | some (.obj fields) => validateAnalysis fields
    | some _ => .error "LLM returned unexpected format."
    | none =>
        .error ("LLM returned a list of raw tasks instead of analysis. Got " ++
          toString items.length ++ " items.")
  | .obj fields =>
    if jsonHasKey fields "status" then validateAnalysis fields
    else .error "LLM returned unexpected format."
  | _ => .error "LLM returned unexpected format."

/-- Runs the successive attempt results of a tenacity-retried call
(stop_after_attempt(3) truncates the list before this is applied):
the first success wins, and exhaustion surfaces the final failure.
The exponential backoff between attempts (wait_exponential with
multiplier 1, min 1, max 10) is real-time behavior with no effect on
the returned value, so it is not part of the embedding. -/
def runAttempts {α : Type} : List (Except String α) → Except String α
  | [] => .error "RetryError"
  | [a] => a
  | a :: rest =>
    match a with
    | .ok v => .ok v
    | .error _ => runAttempts rest

/-- One simplified QMC task row, the shape sent to the classification
collaborator (src/nodes/qmc/analyst_llm.py lines 91-98). -/
structure SimpRow where
  name : Option String
  status : Option String
  lastExecution : Option String
  deriving DecidableEq

/-- Simplification and disabled-row exclusion of analyze_group
(src/nodes/qmc/analyst_llm.py lines 91-98): a row is kept exactly when
its Enabled field equals the string "Yes". -/
def simplifyQmcTasks (tasks : List QRow) : List SimpRow :=
  (tasks.filter (fun t => t.enabled == some "Yes")).map
    (fun t => { name := t.name, status := t.status, lastExecution := t.lastExecution })

/-- Either a short-circuit report or an invocation of the
classification collaborator carrying the simplified rows sent to it. -/
inductive AnalystStep (τ : Type) where
  | report (r : Report)
  | invoke (rows : τ)
  deriving DecidableEq

/-- The pre-collaborator part of analyze_group (src/nodes/qmc/
analyst_llm.py lines 85-101): empty input short-circuits to No Data,
input emptied by the Enabled filter short-circuits to No Run, anything
else invokes the collaborator with the simplified rows. -/
def analyze_group_pre (tasks : List QRow) : AnalystStep (List SimpRow) :=
  if tasks.isEmpty then
    .report { status := "No Data", summary := "No tasks found for this process today." }
  else
    let simplified := simplifyQmcTasks tasks
    if simplified.isEmpty then
      .report { status := "No Run", summary := "No ENABLED tasks found for this process today." }
    else .invoke simplified

/-- The report dict produced from a validated collaborator response
(result.model_dump() in src/nodes/qmc/analyst_llm.py line 80). -/
def toReport (a : AnalysisResult) : Report :=
  { status := a.status, summary := a.summary, failedTasks := a.failed_tasks,
    runningTasks := a.running_tasks }

/-- Embeds analyze_group (src/nodes/qmc/analyst_llm.py lines 85-164)
end to end: the short-circuits, then up to 3 retried collaborator
attempts — each attempt outcome is either a transport/decode failure or
a decoded JSON value run through _parse_llm_response — and on exhausted
retries the per-group Error report whose summary starts with
"LLM Analysis failed: ". -/
def analyze_group (tasks : List QRow) (attempts : List (Except String Json)) : Report :=
  match analyze_group_pre tasks with
  | .report r => r
  | .invoke _ =>
    match runAttempts ((attempts.take 3).map (fun a => a.bind parseLlmResponse)) with
    | .ok res => toReport res
    | .error e => { status := "Error", summary := "LLM Analysis failed: " ++ e }

/-- Embeds the per-group closure _analyze_one of analyst_llm_node
(src/nodes/qmc/analyst_llm.py lines 199-209): an empty partition
short-circuits to a Pending report without touching the collaborator;
otherwise analyze_group runs.  The 0.5s stagger delay is load shaping
with no effect on the returned value. -/
def analyzeOne (p_tasks : List QRow) (attempts : List (Except String Json)) : Report :=
  if p_tasks.isEmpty then
    { status := "Pending", summary := "No execution records found for today." }
  else analyze_group p_tasks attempts

/-- The pre-collaborator view of _analyze_one: its short-circuit, then
analyze_group's own short-circuits. -/
def analyzeOnePre (p_tasks : List QRow) : AnalystStep (List SimpRow) :=
  if p_tasks.isEmpty then
    .report { status := "Pending", summary := "No execution records found for today." }
  else analyze_group_pre p_tasks

/-- Embeds the result collection of analyst_llm_node (lines 212-222):
every partition's report, keyed by its tag, each computed from that
group's own collaborator attempt outcomes. -/
def analystAggregate (partitions : List (String × List QRow))
    (collab : String → List (Except String Json)) : List (String × Report) :=
  partitions.map (fun p => (p.1, analyzeOne p.2 (collab p.1)))

/-- Whitespace trimming over the character list, the embedding of
str.strip() for the ASCII task names and configured patterns. -/
def trimStr (s : String) : String :=
  ⟨((s.data.dropWhile Char.isWhitespace).reverse.dropWhile Char.isWhitespace).reverse⟩

/-- Boolean list-level startswith, the embedding of str.startswith. -/
def startsWithStr (s pre : String) : Bool :=
  pre.data.isPrefixOf s.data

/-- Embeds filter_tasks_by_prefix (src/nodes/nprinting/analyst.py lines
43-49): keep the tasks whose Task name (defaulting to "" when absent),
trimmed and lower-cased, starts with the trimmed lower-cased configured
pattern. -/
def filterTasksByPfx (tasks : List NRow) (pfx : String) : List NRow :=
  tasks.filter (fun t =>
    startsWithStr (lowerStr (trimStr (t.taskName.getD ""))) (lowerStr (trimStr pfx)))

/-- One simplified NPrinting task row, the shape sent to the
collaborator (src/nodes/nprinting/analyst.py lines 111-119). -/
structure NSimpRow where
  taskName : Option String
  status : Option String
  progress : Option String
  created : Option String
  deriving DecidableEq

/-- The simplification of analyze_nprinting_group: no filtering, plain
projection of the four fields. -/
def simplifyNprTasks (tasks : List NRow) : List NSimpRow :=
  tasks.map (fun t =>
    { taskName := t.taskName, status := t.status, progress := t.progress,
      created := t.created })

/-- The pre-collaborator part of analyze_nprinting_group
(src/nodes/nprinting/analyst.py lines 106-119): empty input
short-circuits to No Data, anything else invokes the collaborator with
the simplified rows (no enabled filter exists on this path). -/
def analyze_nprinting_group_pre (tasks : List NRow) : AnalystStep (List NSimpRow) :=
  if tasks.isEmpty then
    .report { status := "No Data", summary := "No tasks found for this process today." }
  else .invoke (simplifyNprTasks tasks)

/-- An NPrinting per-group report as returned by the node's
_analyze_one: a report plus the pattern and task count the node
attaches. -/
structure NReport where
  status : String
  summary : String
  pfx : String
  task_count : Nat
  deriving DecidableEq

/-- Either a short-circuit NPrinting report or a collaborator
invocation carrying the simplified rows, the pattern and the matched
task count. -/
inductive NAnalyzeStep where
  | report (r : NReport)
  | invoke (rows : List NSimpRow) (pfx : String) (count : Nat)
  deriving DecidableEq

/-- The pre-collaborator view of the NPrinting _analyze_one
(src/nodes/nprinting/analyst.py lines 213-231): filter by pattern; an
empty match short-circuits to the Pending report with task_count 0 and
no collaborator call; otherwise the collaborator is invoked on the
matched rows. -/
def nprAnalyzeOnePre (pfx : String) (all_tasks : List NRow) : NAnalyzeStep :=
  let pfx_tasks := filterTasksByPfx all_tasks pfx
  if pfx_tasks.isEmpty then
    .report { status := "Pending", summary := "Tasks have not been executed yet.",
              pfx := pfx, task_count := 0 }
  else .invoke (simplifyNprTasks pfx_tasks) pfx pfx_tasks.length

/-- The C4 claim's classifier, amended, written from the claim's words:
No Data on empty input; otherwise exactly the rows whose enabled field
differs from the exact string "Yes" are excluded (in particular every
row with enabled "No"), No Run when nothing survives, else the
collaborator is invoked on the surviving simplified rows. -/
def classifySpecC4 (tasks : List QRow) : AnalystStep (List SimpRow) :=
  if tasks = [] then
    .report { status := "No Data", summary := "No tasks found for this process today." }
  else
    let kept := tasks.filter (fun t => decide (t.enabled = some "Yes"))
    if kept = [] then
      .report { status := "No Run", summary := "No ENABLED tasks found for this process today." }
    else
      .invoke (kept.map (fun t =>
        { name := t.name, status := t.status, lastExecution := t.lastExecution }))

/-- A concrete row that is neither enabled "Yes" nor enabled "no",
exhibiting the C4 counterexample. -/
def maybeRow : QRow :=
  { name := some "T1", status := some "Success", lastExecution := some "today",
    enabled := some "Maybe", tags := "" }

/-- A concrete row whose tag string contains the key "A". -/
def rowA : QRow :=
  { name := some "A1", status := some "Success", lastExecution := none,
    enabled := some "Yes", tags := "xAy" }

/-- A concrete row whose tag string contains the key "B". -/
def rowB : QRow :=
  { name := some "B1", status := some "Failed", lastExecution := none,
    enabled := some "Yes", tags := "B" }

/-- A concrete enabled row, so the analyzer reaches the collaborator. -/
def enabledRow : QRow :=
  { name := some "T2", status := some "Started", lastExecution := none,
    enabled := some "Yes", tags := "" }

/-- A collaborator response that is a bare list of raw task dicts with
no status/summary analysis element. -/
def bareListJson : Json :=
  .arr [.obj [("Name", .str "t"), ("Status", .str "Success")]]

/-- A concrete failed report. -/
def repFailedX : Report := { status := "Failed", summary := "x" }

/-- A concrete failed report differing from repFailedX in summary and
status casing but not in verdict. -/
def repFailedY : Report := { status := "FAILED", summary := "y" }

theorem collectStatuses_map_snd (m : ReportMap) :
    collectStatuses (m.map Prod.snd) = amendedStatusPool m := by
  unfold collectStatuses amendedStatusPool
  rw [List.map_map]
  congr 1
  funext st
  by_cases h1 : st = "" <;> by_cases h2 : st = "no data" <;> by_cases h3 : st = "no run" <;>
    simp [h1, h2, h3]

theorem collectStatuses_append (a b : List Report) :
    collectStatuses (a ++ b) = collectStatuses a ++ collectStatuses b := by
  unfold collectStatuses
  rw [List.map_append, List.filter_append]

theorem statusPrecedence_eq_spec (l : List String) :
    statusPrecedence l = specPrecedenceC1 l := by
  unfold statusPrecedence specPrecedenceC1
  simp only [List.isEmpty_iff, List.any_eq_true, List.all_eq_true, beq_iff_eq,
    exists_eq_right]

/-- C1 (counterexample). The claim states that with at least one
non-empty map the combined overall_status is always one of Failed,
Running, Pending, Success (Failed on any Failed/Error, Running on any
Running, Pending on any Pending or on a mixed residue, Success when all
remaining are Success).  At the concrete input of one QMC group whose
status is the bookkeeping value "No Data", the code instead returns
"No Data", a value outside the claim's codomain for this case. -/
theorem c1_counterexample :
    combinedOverallStatus [("g", { status := "No Data", summary := "" })] [] = "No Data" ∧
    ("No Data" ≠ "Failed" ∧ "No Data" ≠ "Running" ∧ "No Data" ≠ "Pending" ∧
      "No Data" ≠ "Success") := by
  constructor
  · decide
  · refine ⟨by decide, by decide, by decide, by decide⟩

/-- C1 (amended). The combiner's overall status is a pure function of
the two per-group report maps: Pending when both maps are empty;
otherwise, pooling every group's lower-cased status across both maps
except the bookkeeping statuses No Data and No Run and except empty
statuses, the result is No Data when the pool is empty, else Failed on
any Failed, else Failed on any Error, else Running on any Running, else
Pending on any Pending, else Success when every pooled status is
Success, and Pending for any other residue. -/
theorem c1_overall_status_matches_amended_spec (qmc nprinting : ReportMap) :
    combinedOverallStatus qmc nprinting = specCombinedC1 qmc nprinting := by
  unfold combinedOverallStatus specCombinedC1 determineOverallStatus
  rw [collectStatuses_append, collectStatuses_map_snd, collectStatuses_map_snd,
    statusPrecedence_eq_spec]
  by_cases hq : qmc = [] <;> by_cases hn : nprinting = [] <;>
    simp [hq, hn]

/-- C8. Combiner idempotence: combining a report map with itself yields
the same overall_status as the single-source precedence (combining the
map with an empty second source). -/
theorem c8_combiner_idempotent (m : ReportMap) :
    determineOverallStatus m m = determineOverallStatus m [] := by
  unfold determineOverallStatus
  rw [collectStatuses_append, collectStatuses_append]
  simp only [List.map_nil]
  have hnil : collectStatuses [] = [] := rfl
  rw [hnil, List.append_nil]
  generalize collectStatuses (List.map Prod.snd m) = l
  unfold statusPrecedence
  have hany : ∀ p : String → Bool, (l ++ l).any p = l.any p := by
    intro p; rw [List.any_append, Bool.or_self]
  have hall : ∀ p : String → Bool, (l ++ l).all p = l.all p := by
    intro p; rw [List.all_append, Bool.and_self]
  have hemp : (l ++ l).isEmpty = l.isEmpty := by cases l <;> rfl
  rw [hany, hany, hany, hany, hall, hemp]

/-- C10. When at least one of the two report maps is non-empty but every
group's status in both maps is a bookkeeping status (No Data or No Run,
matched case-insensitively), the combined overall_status is "No Data";
the both-maps-empty case yields "Pending" instead. -/
theorem c10_all_bookkeeping_no_data (qmc nprinting : ReportMap)
    (hne : ¬(qmc = [] ∧ nprinting = []))
    (hbk : ∀ p ∈ qmc ++ nprinting,
      lowerStr p.2.status = "no data" ∨ lowerStr p.2.status = "no run") :
    combinedOverallStatus qmc nprinting = "No Data" ∧
    combinedOverallStatus [] [] = "Pending" := by
  refine ⟨?_, rfl⟩
  unfold combinedOverallStatus determineOverallStatus
  have hempty : (qmc.isEmpty && nprinting.isEmpty) = false := by
    by_cases hq : qmc = [] <;> by_cases hn : nprinting = [] <;>
      simp [hq, hn] at hne ⊢
  rw [hempty]
  simp only [Bool.false_eq_true, if_false]
  have hcol : collectStatuses (qmc.map Prod.snd ++ nprinting.map Prod.snd) = [] := by
    unfold collectStatuses
    rw [List.filter_eq_nil_iff]
    intro st hst
    rw [List.mem_map] at hst
    obtain ⟨r, hr, hrst⟩ := hst
    rw [List.mem_append, List.mem_map, List.mem_map] at hr
    have hbkr : lowerStr r.status = "no data" ∨ lowerStr r.status = "no run" := by
      rcases hr with ⟨p, hp, hpr⟩ | ⟨p, hp, hpr⟩
      · exact hpr ▸ hbk p (List.mem_append_left _ hp)
      · exact hpr ▸ hbk p (List.mem_append_right _ hp)
    subst hrst
    rcases hbkr with h | h <;> simp [h]
  rw [hcol]
  rfl

/-- C9. The fallback executive-summary generator is deterministic and
depends only on the two maps' group counts and failed/error group
names: any two report-map pairs agreeing on those produce the same
sentence; the Failed template truncates the failed-name list to its
first 3 entries; and whenever the natural-language collaborator call
fails, generate_summary_llm returns exactly the fallback.  The fallback
takes no collaborator argument, so it can invoke no external service. -/
theorem c9_fallback_deterministic :
    (∀ (overall : String) (q n q₂ n₂ : ReportMap),
      q.length = q₂.length → n.length = n₂.length →
      failedNames q = failedNames q₂ → failedNames n = failedNames n₂ →
      generateSummaryFallback overall q n = generateSummaryFallback overall q₂ n₂) ∧
    (∀ (e overall : String) (q n : ReportMap),
      generateSummaryLlm (.error e) overall q n = generateSummaryFallback overall q n) ∧
    (∀ (q n : ReportMap),
      generateSummaryFallback "Failed" q n =
        "CRITICAL: " ++ toString (failedNames q ++ failedNames n).length ++
          " process(es) failed: " ++
          String.intercalate ", " ((failedNames q ++ failedNames n).take 3) ++
          (if (failedNames q ++ failedNames n).length > 3 then "..." else "")) := by
  refine ⟨?_, fun e overall q n => rfl, ?_⟩
  · intro overall q n q₂ n₂ hq hn hfq hfn
    unfold generateSummaryFallback
    simp only [hq, hn, hfq, hfn]
  · intro q n
    unfold generateSummaryFallback
    simp

/-- C2 (counterexample). From the state reached after a successful QMC
login, a failed extraction (the collaborator returned success = false)
records qmc_error yet routing proceeds to the analyst stage, not to
error: the claim that routing goes to the error state is false at this
concrete input. -/
theorem c2_counterexample :
    route_after_qmc_extractor (extractor_node stateAfterLogin (.fail "Timeout")) =
      "qmc_analyst" ∧
    "qmc_analyst" ≠ "error" ∧
    (extractor_node stateAfterLogin (.fail "Timeout")).qmc_error =
      some "QMC Extraction failed: Timeout" := by
  refine ⟨rfl, by decide, rfl⟩

/-- C2 (amended). When a source's extract stage fails, the extractor
node records the error in that source's error field and empties that
source's row list but leaves current_step unchanged; routing after
extract goes to error exactly when current_step is already "error", so
a failed extraction otherwise proceeds to that source's analyst
stage. -/
theorem c2_extract_failure_routing (s : WState) (e : String) :
    (extractor_node s (.fail e)).current_step = s.current_step ∧
    (extractor_node s (.fail e)).qmc_error = some ("QMC Extraction failed: " ++ e) ∧
    (extractor_node s (.fail e)).structured_data = [] ∧
    (s.current_step ≠ "error" →
      route_after_qmc_extractor (extractor_node s (.fail e)) = "qmc_analyst") ∧
    (route_after_qmc_extractor (extractor_node s (.fail e)) = "error" ↔
      s.current_step = "error") ∧
    (nprinting_extractor_node s (.fail e)).current_step = s.current_step ∧
    (nprinting_extractor_node s (.fail e)).nprinting_error =
      some ("NPrinting extraction failed: " ++ e) ∧
    (nprinting_extractor_node s (.fail e)).nprinting_data = [] ∧
    (s.current_step ≠ "error" →
      route_after_nprinting_extractor (nprinting_extractor_node s (.fail e)) =
        "nprinting_analyst") ∧
    (route_after_nprinting_extractor (nprinting_extractor_node s (.fail e)) = "error" ↔
      s.current_step = "error") := by
  by_cases h : s.current_step = "error" <;>
    simp [extractor_node, nprinting_extractor_node, route_after_qmc_extractor,
      route_after_nprinting_extractor, h]

/-- C2 (witness). The amended theorem applied at the concrete
post-login state and error "Timeout". -/
theorem c2_extract_failure_routing_witness :
    route_after_qmc_extractor (extractor_node stateAfterLogin (.fail "Timeout")) =
      "qmc_analyst" ∧
    route_after_nprinting_extractor (nprinting_extractor_node stateAfterLogin (.fail "Timeout")) =
      "nprinting_analyst" :=
  ⟨(c2_extract_failure_routing stateAfterLogin "Timeout").2.2.2.1 (by decide),
   (c2_extract_failure_routing stateAfterLogin "Timeout").2.2.2.2.2.2.2.2.1 (by decide)⟩

/-- C3 (counterexample). At the concrete mid-retry state (counter 1,
max 3, no session), a login failure in the collaborator's
initialization branch leaves the counter at 1 — not incremented to 2 —
while no session is present, the counter is below max_retries, and
routing re-enters the login stage: the claim's increment assertion is
false at this input. -/
theorem c3_counterexample :
    cookiesTruthy (login_node_sync stateMidRetry (.initFail "spawn failed")).session_cookies =
      false ∧
    (login_node_sync stateMidRetry (.initFail "spawn failed")).retry_count = 1 ∧
    (login_node_sync stateMidRetry (.initFail "spawn failed")).retry_count <
      (login_node_sync stateMidRetry (.initFail "spawn failed")).max_retries ∧
    (login_node_sync stateMidRetry (.initFail "spawn failed")).retry_count ≠
      stateMidRetry.retry_count + 1 ∧
    route_after_qmc_login (login_node_sync stateMidRetry (.initFail "spawn failed")) =
      "qmc_login" := by
  refine ⟨rfl, rfl, by decide, by decide, rfl⟩

/-- C3 (amended). For every workflow state after a login stage of
source X: with no session and counter at least max_retries routing goes
to error; with no session and counter below max_retries routing
re-enters that login stage; with a session present routing goes to that
source's extract stage.  The counter is incremented by one exactly when
the failure came from the script's page-automation branch; on an
initialization failure the QMC counter is left unchanged and the
NPrinting counter is reset to 0. -/
theorem c3_login_retry_routing (s : WState) (e : String) :
    (cookiesTruthy s.session_cookies = false → s.max_retries ≤ s.retry_count →
      route_after_qmc_login s = "error") ∧
    (cookiesTruthy s.session_cookies = false → s.retry_count < s.max_retries →
      route_after_qmc_login s = "qmc_login") ∧
    (cookiesTruthy s.session_cookies = true → route_after_qmc_login s = "qmc_extractor") ∧
    (login_node_sync s (.pageFail e)).retry_count = s.retry_count + 1 ∧
    (login_node_sync s (.pageFail e)).session_cookies = none ∧
    (login_node_sync s (.initFail e)).retry_count = s.retry_count ∧
    (cookiesTruthy s.nprinting_cookies = false → s.max_retries ≤ s.nprinting_retry_count →
      route_after_nprinting_login s = "error") ∧
    (cookiesTruthy s.nprinting_cookies = false → s.nprinting_retry_count < s.max_retries →
      route_after_nprinting_login s = "nprinting_login") ∧
    (cookiesTruthy s.nprinting_cookies = true →
      route_after_nprinting_login s = "nprinting_extractor") ∧
    (nprinting_login_node s (.pageFail e)).nprinting_retry_count =
      s.nprinting_retry_count + 1 ∧
    (nprinting_login_node s (.initFail e)).nprinting_retry_count = 0 ∧
    (login_node_sync s (.ok [("c", "v")])).session_cookies = some [("c", "v")] := by
  refine ⟨?_, ?_, ?_, rfl, rfl, rfl, ?_, ?_, ?_, rfl, rfl, rfl⟩ <;>
    intro h₁ <;> try intro h₂
  · simp [route_after_qmc_login, h₁, h₂]
  · simp [route_after_qmc_login, h₁, Nat.not_le_of_lt h₂]
  · simp [route_after_qmc_login, h₁]
  · simp [route_after_nprinting_login, h₁, h₂]
  · simp [route_after_nprinting_login, h₁, Nat.not_le_of_lt h₂]
  · simp [route_after_nprinting_login, h₁]

/-- C3 (witness). The amended theorem applied at the concrete mid-retry
state: routing re-enters login while below max_retries, and a
page-automation failure increments the counter to 2. -/
theorem c3_login_retry_routing_witness :
    route_after_qmc_login stateMidRetry = "qmc_login" ∧
    (login_node_sync stateMidRetry (.pageFail "timeout")).retry_count = 2 :=
  ⟨(c3_login_retry_routing stateMidRetry "timeout").2.1 (by decide) (by decide),
   (c3_login_retry_routing stateMidRetry "timeout").2.2.2.1⟩

theorem partitionTags_foldl_spec (rows : List QRow) (keys : List String)
    (acc : String → List QRow) :
    rows.foldl partitionStep (keys.map (fun k => (k, acc k))) =
      keys.map (fun k => (k, acc k ++ rows.filter (fun r => strContains k r.tags))) := by
  induction rows generalizing acc with
  | nil => simp
  | cons r rows ih =>
    rw [List.foldl_cons]
    have hstep : partitionStep (keys.map (fun k => (k, acc k))) r =
        keys.map (fun k => (k, acc k ++ if strContains k r.tags then [r] else [])) := by
      unfold partitionStep
      rw [List.map_map]
      rw [show ((fun p : String × List QRow =>
            if strContains p.1 r.tags then (p.1, p.2 ++ [r]) else p) ∘
              (fun k => (k, acc k))) =
          (fun k => (k, acc k ++ if strContains k r.tags then [r] else [])) from
        funext fun k => by by_cases h : strContains k r.tags <;> simp [h]]
    rw [hstep, ih]
    rw [show (fun k => (k, (acc k ++ if strContains k r.tags then [r] else []) ++
          rows.filter (fun x => strContains k x.tags))) =
        (fun k => (k, acc k ++ (r :: rows).filter (fun x => strContains k x.tags))) from
      funext fun k => by
        by_cases h : strContains k r.tags <;>
          simp [List.filter_cons, h, List.append_assoc]]

/-- C5. The substring-in-tags partitioner: the output's key list is
exactly the configured key list (each key present even with an empty
bucket, also on empty input), and each key's bucket is exactly the rows
whose string-ified tag field contains that key as a substring (so a row
matching several keys lands in several buckets, and a row matching no
key is dropped). -/
theorem c5_partitioner_buckets (rows : List QRow) (keys : List String) :
    (partitionTags rows keys).map Prod.fst = keys ∧
    (∀ k l, (k, l) ∈ partitionTags rows keys →
      l = rows.filter (fun r => strContains k r.tags)) ∧
    partitionTags [] keys = keys.map (fun k => (k, [])) := by
  have h := partitionTags_foldl_spec rows keys (fun _ => [])
  unfold partitionTags
  rw [h]
  refine ⟨?_, ?_, ?_⟩
  · rw [List.map_map]
    exact List.map_id keys
  · intro k l hmem
    rw [List.mem_map] at hmem
    obtain ⟨k₂, _, hk⟩ := hmem
    obtain ⟨hk1, hk2⟩ := Prod.mk.injEq .. ▸ hk
    subst hk1
    simpa using hk2.symm
  · rw [partitionTags_foldl_spec [] keys (fun _ => [])]
    simp

/-- C4 (counterexample). A one-row list whose Enabled field is "Maybe"
— a value different from "no" / "No" in any casing — is non-empty and
contains no disabled row, yet the classifier answers No Run without
invoking the collaborator: the claim that only enabled-equals-no rows
are excluded is false at this input. -/
theorem c4_counterexample :
    analyze_group_pre [maybeRow] =
      .report { status := "No Run",
                summary := "No ENABLED tasks found for this process today." } ∧
    maybeRow.enabled ≠ some "no" ∧ maybeRow.enabled ≠ some "No" ∧
    ([maybeRow] : List QRow) ≠ [] := by
  refine ⟨rfl, by decide, by decide, by decide⟩

/-- C4 (amended). The group classifier on an empty row list returns
status No Data; on a non-empty row list exactly the rows whose Enabled
field differs from the string "Yes" are excluded before any
classification (in particular every row with enabled "no"), and if
that exclusion empties the set the classifier returns status No Run
without invoking the classification collaborator; the NPrinting
classifier returns No Data on an empty row list. -/
theorem c4_enabled_filter (tasks : List QRow) :
    analyze_group_pre tasks = classifySpecC4 tasks ∧
    analyze_nprinting_group_pre ([] : List NRow) =
      .report { status := "No Data",
                summary := "No tasks found for this process today." } := by
  refine ⟨?_, rfl⟩
  unfold analyze_group_pre classifySpecC4 simplifyQmcTasks
  have hfil : tasks.filter (fun t => t.enabled == some "Yes") =
      tasks.filter (fun t => decide (t.enabled = some "Yes")) := by
    congr 1
    funext t
    by_cases h : t.enabled = some "Yes" <;> simp [h]
  rw [hfil]
  by_cases h1 : tasks = [] <;>
    by_cases h2 : tasks.filter (fun t => decide (t.enabled = some "Yes")) = [] <;>
      simp [h1, h2, List.isEmpty_iff]

/-- C7 (counterexample). At the concrete empty QMC partition the
analyzer's short-circuit report carries the summary "No execution
records found for today.", not the claimed sentence. -/
theorem c7_counterexample :
    analyzeOne [] [] =
      { status := "Pending", summary := "No execution records found for today." } ∧
    ({ status := "Pending",
       summary := "No execution records found for today." } : Report).summary ≠
      "Tasks have not been executed yet." := by
  refine ⟨rfl, by decide⟩

/-- C7 (amended). A group whose partitioned row list is empty gets a
Pending report without any collaborator invocation; the QMC summary is
"No execution records found for today." and the NPrinting summary is
"Tasks have not been executed yet." (with the pattern echoed and
task_count 0). -/
theorem c7_empty_partition_pending :
    (∀ attempts, analyzeOne [] attempts =
      { status := "Pending", summary := "No execution records found for today." }) ∧
    (∀ pfx all_tasks, filterTasksByPfx all_tasks pfx = [] →
      nprAnalyzeOnePre pfx all_tasks =
        .report { status := "Pending", summary := "Tasks have not been executed yet.",
                  pfx := pfx, task_count := 0 }) := by
  constructor
  · intro attempts; rfl
  · intro pfx all_tasks h
    unfold nprAnalyzeOnePre
    simp [h]

/-- C7 (witness). The amended theorem applied at the empty NPrinting
task list with pattern "h." and at a concrete failed attempt list. -/
theorem c7_empty_partition_pending_witness :
    nprAnalyzeOnePre "h." [] =
      .report { status := "Pending", summary := "Tasks have not been executed yet.",
                pfx := "h.", task_count := 0 } ∧
    analyzeOne [] [.error "boom"] =
      { status := "Pending", summary := "No execution records found for today." } :=
  ⟨c7_empty_partition_pending.2 "h." [] rfl, c7_empty_partition_pending.1 [.error "boom"]⟩

theorem listInfixB_of_isPrefixOf (a l : List Char) (h : a.isPrefixOf l = true) :
    listInfixB a l = true := by
  cases l with
  | nil => exact h
  | cons c rest => simp [listInfixB, h]

theorem isPrefixOf_append_right {a b : List Char} (c : List Char)
    (h : a.isPrefixOf b = true) : a.isPrefixOf (b ++ c) = true := by
  induction a generalizing b with
  | nil => simp [List.isPrefixOf]
  | cons x xs ih =>
    cases b with
    | nil => simp [List.isPrefixOf] at h
    | cons y ys =>
      simp only [List.isPrefixOf, List.cons_append, Bool.and_eq_true] at h ⊢
      exact ⟨h.1, ih h.2⟩

theorem strContains_llm_failed (e : String) :
    strContains "LLM Analysis failed" ("LLM Analysis failed: " ++ e) = true := by
  apply listInfixB_of_isPrefixOf
  rw [String.data_append]
  exact isPrefixOf_append_right _ (by decide)

theorem parseLlmResponse_bare_list (items : List Json)
    (h : ∀ j ∈ items, looksLikeAnalysis j = false) :
    ∃ e, parseLlmResponse (.arr items) = .error e := by
  have hfind : items.find? looksLikeAnalysis = none :=
    List.find?_eq_none.mpr (fun x hx => by simp [h x hx])
  have hres : parseLlmResponse (.arr items) =
      .error ("LLM returned a list of raw tasks instead of analysis. Got " ++
        toString items.length ++ " items.") := by
    simp only [parseLlmResponse, hfind]
  exact ⟨_, hres⟩

theorem runAttempts_all_error {α : Type} (l : List (Except String α))
    (hne : l ≠ []) (h : ∀ a ∈ l, ∃ e, a = .error e) :
    ∃ e, runAttempts l = .error e := by
  induction l with
  | nil => exact absurd rfl hne
  | cons a rest ih =>
    obtain ⟨e, he⟩ := h a (List.mem_cons_self a rest)
    subst he
    cases rest with
    | nil => exact ⟨e, rfl⟩
    | cons b rest₂ =>
      obtain ⟨e₂, he₂⟩ :=
        ih (by simp) (fun x hx => h x (List.mem_cons_of_mem _ hx))
      exact ⟨e₂, by simpa [runAttempts] using he₂⟩

/-- C6. Three-part containment of collaborator-response failures:
(1) a bare-list response holding no element with both a status and a
summary key fails validation; (2) when all 3 retried attempts return
such bare lists, the group's report has status Error with a summary
containing "LLM Analysis failed"; (3) the per-group analyses are
independent — changing one group's collaborator outcomes leaves every
sibling group's aggregated report unchanged. -/
theorem c6_validation_retry_containment :
    (∀ items : List Json, (∀ j ∈ items, looksLikeAnalysis j = false) →
      ∃ e, parseLlmResponse (.arr items) = .error e) ∧
    (∀ (tasks : List QRow) (contents : List Json),
      simplifyQmcTasks tasks ≠ [] → contents.length = 3 →
      (∀ c ∈ contents, ∃ items : List Json, c = .arr items ∧
        ∀ j ∈ items, looksLikeAnalysis j = false) →
      (analyze_group tasks (contents.map Except.ok)).status = "Error" ∧
      strContains "LLM Analysis failed"
        ((analyze_group tasks (contents.map Except.ok)).summary) = true) ∧
    (∀ (partitions : List (String × List QRow))
        (collab collab₂ : String → List (Except String Json)) (g : String),
      (∀ g₂, g₂ ≠ g → collab g₂ = collab₂ g₂) →
      (analystAggregate partitions collab).filter (fun p => p.1 != g) =
        (analystAggregate partitions collab₂).filter (fun p => p.1 != g)) := by
  refine ⟨parseLlmResponse_bare_list, ?_, ?_⟩
  · intro tasks contents hsimp hlen hbare
    have htasks : tasks.isEmpty = false := by
      cases tasks with
      | nil => exact absurd rfl hsimp
      | cons t ts => rfl
    have hpre : analyze_group_pre tasks = .invoke (simplifyQmcTasks tasks) := by
      unfold analyze_group_pre
      rw [htasks]
      simp only [Bool.false_eq_true, if_false]
      rw [if_neg]
      simp [List.isEmpty_iff, hsimp]
    have htake : (contents.map (Except.ok : Json → Except String Json)).take 3 =
        contents.map Except.ok := by
      apply List.take_of_length_le
      simp [hlen]
    have hrun : ∃ e,
        runAttempts (((contents.map Except.ok).take 3).map
          (fun a => a.bind parseLlmResponse)) = .error e := by
      apply runAttempts_all_error
      · rw [htake]
        cases contents with
        | nil => simp at hlen
        | cons c cs => simp
      · intro a ha
        rw [htake, List.map_map, List.mem_map] at ha
        obtain ⟨c, hc, hac⟩ := ha
        obtain ⟨items, hci, hitems⟩ := hbare c hc
        obtain ⟨e, he⟩ := parseLlmResponse_bare_list items hitems
        refine ⟨e, ?_⟩
        rw [← hac]
        simp only [Function.comp_apply, hci]
        exact he
    obtain ⟨e, he⟩ := hrun
    unfold analyze_group
    rw [hpre, he]
    exact ⟨rfl, strContains_llm_failed e⟩
  · intro partitions collab collab₂ g hag
    induction partitions with
    | nil => rfl
    | cons p ps ih =>
      unfold analystAggregate at ih ⊢
      rw [List.map_cons, List.map_cons, List.filter_cons, List.filter_cons]
      by_cases h : p.1 = g
      · simp only [h, bne_self_eq_false]
        exact ih
      · have hbe : (p.1 != g) = true := by simp [h]
        simp only [hbe, if_true]
        rw [hag p.1 h, ih]

/-- C5 (witness). The partitioner theorem applied at two concrete rows
and keys: key list preserved, and bucket "A" holds exactly the row
whose tags contain "A". -/
theorem c5_partitioner_buckets_witness :
    (partitionTags [rowA, rowB] ["A", "B"]).map Prod.fst = ["A", "B"] ∧
    [rowA] = [rowA, rowB].filter (fun r => strContains "A" r.tags) :=
  ⟨(c5_partitioner_buckets [rowA, rowB] ["A", "B"]).1,
   (c5_partitioner_buckets [rowA, rowB] ["A", "B"]).2.1 "A" [rowA] (by decide)⟩

/-- C6 (witness). The containment theorem applied at one enabled row
and three bare-list responses: the group's final report is Error with
an "LLM Analysis failed" summary. -/
theorem c6_validation_retry_containment_witness :
    (analyze_group [enabledRow]
      ([bareListJson, bareListJson, bareListJson].map Except.ok)).status = "Error" ∧
    strContains "LLM Analysis failed"
      ((analyze_group [enabledRow]
        ([bareListJson, bareListJson, bareListJson].map Except.ok)).summary) = true := by
  refine c6_validation_retry_containment.2.1 [enabledRow]
    [bareListJson, bareListJson, bareListJson] (by decide) rfl ?_
  intro c hc
  simp only [List.mem_cons, List.not_mem_nil, or_false] at hc
  have hcb : c = bareListJson := by rcases hc with h | h | h <;> exact h
  subst hcb
  exact ⟨[.obj [("Name", .str "t"), ("Status", .str "Success")]], rfl, by decide⟩

/-- C9 (witness). The determinism theorem applied at two concrete maps
agreeing on counts and failed names, and the fallback equation applied
at a concrete collaborator failure. -/
theorem c9_fallback_deterministic_witness :
    generateSummaryFallback "Failed" [("a", repFailedX)] [] =
      generateSummaryFallback "Failed" [("a", repFailedY)] [] ∧
    generateSummaryLlm (.error "HTTP 500") "Running" [("a", repFailedX)] [] =
      generateSummaryFallback "Running" [("a", repFailedX)] [] :=
  ⟨c9_fallback_deterministic.1 "Failed" [("a", repFailedX)] [] [("a", repFailedY)] []
      rfl rfl (by decide) rfl,
   c9_fallback_deterministic.2.1 "HTTP 500" "Running" [("a", repFailedX)] []⟩

/-- C10 (witness). The bookkeeping theorem applied at one No Data QMC
group and one no-run NPrinting group. -/
theorem c10_all_bookkeeping_no_data_witness :
    combinedOverallStatus [("g", { status := "No Data", summary := "s" })]
      [("h", { status := "no run", summary := "s" })] = "No Data" ∧
    combinedOverallStatus [] [] = "Pending" :=
  c10_all_bookkeeping_no_data [("g", { status := "No Data", summary := "s" })]
    [("h", { status := "no run", summary := "s" })] (by decide) (by decide)
